import Mathlib

/-!
Verification of the restaurants MCP server
(`restaurants_mcp_server/restaurants_server.py`).

The server-side logic is a pure transformation from JSON payloads to text:
`call_rapidapi_request` normalizes HTTP outcomes into a JSON value, and the
two tools `search_locations` / `get_restaurants` reshape that JSON value into
a human-readable string.  We embed the JSON data model and the Python dynamic
operations the code uses (`in` membership, subscripting, `dict.get`, f-string
rendering) shallowly; a Python exception escaping the tool body is modelled by
the `Except.error` channel, while a returned string is `Except.ok`.
-/

/-- Dynamic JSON values as produced by `response.json()`.  Python maps JSON
objects to `dict`, arrays to `list`, strings to `str`, booleans to `bool` and
`null` to `None`.  JSON numbers are modelled as integers; floating-point
rendering is outside the model and no verified property depends on it. -/
inductive Json where
  | null : Json
  | bool : Bool → Json
  | num : Int → Json
  | str : String → Json
  | arr : List Json → Json
  | obj : List (String × Json) → Json

/-- First-match lookup of a key among the fields of a JSON object (Python
dicts have unique keys, so first-match agrees with dict lookup). -/
def lookupField : List (String × Json) → String → Option Json
  | [], _ => none
  | (k, v) :: rest, key => if k = key then some v else lookupField rest key

/-- Python type name of a JSON value, used in exception messages. -/
def pyTypeName : Json → String
  | Json.null => "NoneType"
  | Json.bool _ => "bool"
  | Json.num _ => "int"
  | Json.str _ => "str"
  | Json.arr _ => "list"
  | Json.obj _ => "dict"

mutual

/-- Python `repr` of a JSON value (string-escaping subtleties are not
modelled; no verified property depends on container rendering). -/
def pyRepr : Json → String
  | Json.null => "None"
  | Json.bool true => "True"
  | Json.bool false => "False"
  | Json.num n => toString n
  | Json.str s => "\x27" ++ s ++ "\x27"
  | Json.arr xs => "[" ++ pyReprList xs ++ "]"
  | Json.obj fs => "\x7b" ++ pyReprFields fs ++ "\x7d"

/-- Comma-separated `repr` of list elements. -/
def pyReprList : List Json → String
  | [] => ""
  | [x] => pyRepr x
  | x :: xs => pyRepr x ++ ", " ++ pyReprList xs

/-- Comma-separated `repr` of dict entries. -/
def pyReprFields : List (String × Json) → String
  | [] => ""
  | [(k, v)] => "\x27" ++ k ++ "\x27: " ++ pyRepr v
  | (k, v) :: fs => "\x27" ++ k ++ "\x27: " ++ pyRepr v ++ ", " ++ pyReprFields fs

end

/-- Python `str()` of a JSON value, as used by f-string interpolation. -/
def pyStr : Json → String
  | Json.null => "None"
  | Json.bool true => "True"
  | Json.bool false => "False"
  | Json.num n => toString n
  | Json.str s => s
  | Json.arr xs => pyRepr (Json.arr xs)
  | Json.obj fs => pyRepr (Json.obj fs)

/-- Membership of a string `key` in the elements of a list, as Python
computes `key in xs` for a `list` value (equality against each element; a
string only ever equals a string). -/
def strElem (key : String) : List Json → Bool
  | [] => false
  | Json.str s :: rest => s = key || strElem key rest
  | _ :: rest => strElem key rest

/-- Whether the first character list starts the second. -/
def startsWithChars : List Char → List Char → Bool
  | [], _ => true
  | _ :: _, [] => false
  | c :: cs, d :: ds => c = d && startsWithChars cs ds

/-- Whether the first character list occurs contiguously in the second. -/
def hasSubChars (needle : List Char) : List Char → Bool
  | [] => needle.isEmpty
  | c :: rest => startsWithChars needle (c :: rest) || hasSubChars needle rest

/-- Substring test, as Python computes `needle in haystack` for `str`. -/
def strContains (haystack needle : String) : Bool :=
  hasSubChars needle.toList haystack.toList

/-- Python `key in value` for a string `key`: key lookup on a dict,
element membership on a list, substring test on a string, and a `TypeError`
on non-container scalars. -/
def pyContains (v : Json) (key : String) : Except String Bool :=
  match v with
  | Json.obj fs => Except.ok (lookupField fs key).isSome
  | Json.arr xs => Except.ok (strElem key xs)
  | Json.str s => Except.ok (strContains s key)
  | other => Except.error ("TypeError: argument of type " ++ pyTypeName other ++ " is not iterable")

/-- Python `value[key]` for a string `key`: dict lookup (`KeyError` when the
key is absent), `TypeError` on lists, strings and scalars. -/
def pyGetItem (v : Json) (key : String) : Except String Json :=
  match v with
  | Json.obj fs =>
    match lookupField fs key with
    | some x => Except.ok x
    | none => Except.error ("KeyError: " ++ key)
  | Json.arr _ => Except.error "TypeError: list indices must be integers or slices, not str"
  | Json.str _ => Except.error "TypeError: string indices must be integers"
  | other => Except.error ("TypeError: " ++ pyTypeName other ++ " object is not subscriptable")

/-- Field lookup with default on the fields of a JSON object: the semantics
of `dict.get(key, default)` once the receiver is known to be a dict. -/
def objGet (fs : List (String × Json)) (key : String) (default : Json) : Json :=
  (lookupField fs key).getD default

/-- Python `value.get(key, default)`: defaulted lookup on a dict, and an
`AttributeError` on every other value (only `dict` has a `get` method). -/
def pyGet (v : Json) (key : String) (default : Json) : Except String Json :=
  match v with
  | Json.obj fs => Except.ok (objGet fs key default)
  | other => Except.error ("AttributeError: " ++ pyTypeName other ++ " object has no attribute get")

/-- Whether a JSON value is an object (a Python dict). -/
def isObj : Json → Bool
  | Json.obj _ => true
  | _ => false

/-- Whether every element of the list is a JSON object. -/
def allObjs (xs : List Json) : Bool := xs.all isObj

/-- Whether a tool outcome is an uncaught Python exception (as opposed to a
returned string). -/
def isPyError (r : Except String String) : Bool :=
  match r with
  | Except.error _ => true
  | Except.ok _ => false

/-!
The gateway client `call_rapidapi_request`.  The HTTP exchange itself is the
environment: we model its outcome as either a transport-level exception
raised by `client.get` (connection error, timeout, ...) or a received
response carrying a status code and the result of `response.json()` (the
JSON parser lives in the `httpx` library, so the body is modelled directly
as its decode outcome).
-/

/-- A received HTTP response: its status code and the outcome of decoding
its body as JSON (`Except.error` models a `json.JSONDecodeError` raised by
`response.json()`). -/
structure HttpResponse where
  status : Nat
  jsonBody : Except String Json

/-- Outcome of `client.get`: a transport failure raising an exception whose
`str` is the message, or a response. -/
inductive HttpResult where
  | err : String → HttpResult
  | ok : HttpResponse → HttpResult

/-- Python truth of `200 <= status < 300`: `response.raise_for_status()`
raises `HTTPStatusError` exactly when the status is not a 2xx success. -/
def is2xx (status : Nat) : Bool := 200 ≤ status && status < 300

/-- Message `str(e)` of the `HTTPStatusError` raised by
`response.raise_for_status()`; the exact `httpx` text is environment
detail, abstracted as a function of the status code. -/
def statusErrorMessage (status : Nat) : String :=
  "HTTP status error " ++ toString status

/-- Shallow embedding of `call_rapidapi_request` (restaurants_server.py,
lines 35-53): inside the `try`, `client.get` may raise (transport failure),
`raise_for_status` raises on a non-2xx status, and `response.json()` raises
on a decode failure; the `except Exception` arm turns any of these into the
returned dict `\x7b"error": str(e)\x7d`.  On success the parsed JSON body is
returned as is.  The function is total: no exception escapes it. -/
def call_rapidapi_request : HttpResult → Json
  | HttpResult.err m => Json.obj [("error", Json.str m)]
  | HttpResult.ok resp =>
    if is2xx resp.status then
      match resp.jsonBody with
      | Except.ok j => j
      | Except.error m => Json.obj [("error", Json.str m)]
    else
      Json.obj [("error", Json.str (statusErrorMessage resp.status))]

/-!
The tool `search_locations` (restaurants_server.py, lines 55-90).  After the
gateway call the body is a pure function of the gateway result; we embed
that function as `search_locations_format` and the whole tool (for a given
HTTP outcome) as its composition with the gateway.
-/

/-- The four-line location block built by the f-string in the loop body of
`search_locations` (lines 78-84), for a location that is a dict with fields
`fs`: each `location.get(key, default)` is a defaulted field lookup and each
interpolation renders with `str()`. -/
def locBlock (fs : List (String × Json)) : String :=
  "Name: " ++ pyStr (objGet fs "localizedName" (Json.str "Unknown")) ++ "\n" ++
  "Location Id: " ++ pyStr (objGet fs "locationId" (Json.str "Unknown")) ++ "\n" ++
  "Coordinates: " ++ pyStr (objGet fs "latitude" (Json.str "N/A")) ++ ", " ++
    pyStr (objGet fs "longitude" (Json.str "N/A")) ++ "\n" ++
  "PlaceType: " ++ pyStr (objGet fs "placeType" (Json.str "Unknown")) ++ "\n"

/-- The location block as a total function of the JSON entry; on the
non-dict entries (where the Python loop body raises instead of producing a
block) it returns the empty string, a value the theorems only use under the
hypothesis that every entry is a dict. -/
def locBlockJ : Json → String
  | Json.obj fs => locBlock fs
  | _ => ""

/-- One iteration of the `search_locations` loop body: five `location.get`
calls (each raising `AttributeError` on a non-dict) followed by the
f-string. -/
def formatLocation (location : Json) : Except String String :=
  match pyGet location "localizedName" (Json.str "Unknown") with
  | Except.error e => Except.error e
  | Except.ok name =>
    match pyGet location "locationId" (Json.str "Unknown") with
    | Except.error e => Except.error e
    | Except.ok locId =>
      match pyGet location "latitude" (Json.str "N/A") with
      | Except.error e => Except.error e
      | Except.ok lat =>
        match pyGet location "longitude" (Json.str "N/A") with
        | Except.error e => Except.error e
        | Except.ok lon =>
          match pyGet location "placeType" (Json.str "Unknown") with
          | Except.error e => Except.error e
          | Except.ok pt =>
            Except.ok ("Name: " ++ pyStr name ++ "\n" ++
              "Location Id: " ++ pyStr locId ++ "\n" ++
              "Coordinates: " ++ pyStr lat ++ ", " ++ pyStr lon ++ "\n" ++
              "PlaceType: " ++ pyStr pt ++ "\n")

/-- The `for location in result["data"]` loop accumulating `results`: blocks
are collected in order, and an exception raised mid-loop aborts the whole
tool call. -/
def formatLocations : List Json → Except String (List String)
  | [] => Except.ok []
  | x :: xs =>
    match formatLocation x with
    | Except.error e => Except.error e
    | Except.ok block =>
      match formatLocations xs with
      | Except.error e => Except.error e
      | Except.ok blocks => Except.ok (block :: blocks)

/-- Shallow embedding of the body of `search_locations` after the gateway
call (lines 68-90), as a function of the gateway result `result`:
`if "error" in result:` returns the prefixed error string; then
`if "data" in result and isinstance(result["data"], list):` formats the
entries and joins them with `"\n---\n"` (or returns the no-results sentence
for an empty list); otherwise the fixed unexpected-format sentence.
`Except.error` is an uncaught Python exception escaping the tool. -/
def search_locations_format (result : Json) : Except String String :=
  match pyContains result "error" with
  | Except.error e => Except.error e
  | Except.ok true =>
    match pyGetItem result "error" with
    | Except.error e => Except.error e
    | Except.ok v => Except.ok ("Error fetching locations: " ++ pyStr v)
  | Except.ok false =>
    match pyContains result "data" with
    | Except.error e => Except.error e
    | Except.ok false => Except.ok "Unexpected response format from the API."
    | Except.ok true =>
      match pyGetItem result "data" with
      | Except.error e => Except.error e
      | Except.ok (Json.arr locs) =>
        match formatLocations locs with
        | Except.error e => Except.error e
        | Except.ok blocks =>
          if blocks.isEmpty then Except.ok "No locations found matching your query."
          else Except.ok (String.intercalate "\n---\n" blocks)
      | Except.ok _ => Except.ok "Unexpected response format from the API."

/-- The tool `search_locations` for a given HTTP outcome: the gateway call
followed by the formatting body. -/
def search_locations (r : HttpResult) : Except String String :=
  search_locations_format (call_rapidapi_request r)

/-!
The tool `get_restaurants` (restaurants_server.py, lines 92-138).
-/

/-- The seven-line restaurant text assigned to `restaurant_info` by the
f-string in the loop body of `get_restaurants` (lines 119-131), for a
restaurant that is a dict with fields `fs`. -/
def restBase (fs : List (String × Json)) : String :=
  "Name: " ++ pyStr (objGet fs "name" (Json.str "Unknown")) ++ "\n" ++
  "Average Rating: " ++ pyStr (objGet fs "averageRating" (Json.str "Unknown")) ++ "\n" ++
  "User Review Count: " ++ pyStr (objGet fs "userReviewCount" (Json.str "Unknown")) ++ "\n" ++
  "Menu Url: " ++ pyStr (objGet fs "menuUrl" (Json.str "Unknown")) ++ "\n" ++
  "City Name GeoName: " ++ pyStr (objGet fs "parentGeoName" (Json.str "Unknown")) ++ "\n" ++
  "Status: " ++ pyStr (objGet fs "currentOpenStatusCategory" (Json.str "Unknown")) ++ "\n" ++
  "Premium: " ++ pyStr (objGet fs "isPremium" (Json.str "Unknown")) ++ "\n"

/-- The full restaurant block appended to `results`: after the f-string the
code executes `restaurant_info += f"Room: \x7brestaurant_info\x7d\n"`,
re-embedding the block text into itself under a `Room: ` label. -/
def restBlock (fs : List (String × Json)) : String :=
  restBase fs ++ "Room: " ++ restBase fs ++ "\n"

/-- The restaurant block as a total function of the JSON entry; `""` on
non-dict entries, used only under an all-dicts hypothesis. -/
def restBlockJ : Json → String
  | Json.obj fs => restBlock fs
  | _ => ""

/-- One iteration of the `get_restaurants` loop body: seven
`restaurant.get` calls (each raising `AttributeError` on a non-dict), the
f-string building `restaurant_info`, and the `Room:` self-append. -/
def formatRestaurant (restaurant : Json) : Except String String :=
  match pyGet restaurant "name" (Json.str "Unknown") with
  | Except.error e => Except.error e
  | Except.ok name =>
    match pyGet restaurant "averageRating" (Json.str "Unknown") with
    | Except.error e => Except.error e
    | Except.ok rating =>
      match pyGet restaurant "userReviewCount" (Json.str "Unknown") with
      | Except.error e => Except.error e
      | Except.ok reviews =>
        match pyGet restaurant "menuUrl" (Json.str "Unknown") with
        | Except.error e => Except.error e
        | Except.ok menu =>
          match pyGet restaurant "parentGeoName" (Json.str "Unknown") with
          | Except.error e => Except.error e
          | Except.ok geo =>
            match pyGet restaurant "currentOpenStatusCategory" (Json.str "Unknown") with
            | Except.error e => Except.error e
            | Except.ok status =>
              match pyGet restaurant "isPremium" (Json.str "Unknown") with
              | Except.error e => Except.error e
              | Except.ok premium =>
                Except.ok
                  (("Name: " ++ pyStr name ++ "\n" ++
                    "Average Rating: " ++ pyStr rating ++ "\n" ++
                    "User Review Count: " ++ pyStr reviews ++ "\n" ++
                    "Menu Url: " ++ pyStr menu ++ "\n" ++
                    "City Name GeoName: " ++ pyStr geo ++ "\n" ++
                    "Status: " ++ pyStr status ++ "\n" ++
                    "Premium: " ++ pyStr premium ++ "\n") ++
                   "Room: " ++
                   ("Name: " ++ pyStr name ++ "\n" ++
                    "Average Rating: " ++ pyStr rating ++ "\n" ++
                    "User Review Count: " ++ pyStr reviews ++ "\n" ++
                    "Menu Url: " ++ pyStr menu ++ "\n" ++
                    "City Name GeoName: " ++ pyStr geo ++ "\n" ++
                    "Status: " ++ pyStr status ++ "\n" ++
                    "Premium: " ++ pyStr premium ++ "\n") ++ "\n")

/-- The `for restaurant in restaurants[:10]` loop accumulating `results`. -/
def formatRestaurants : List Json → Except String (List String)
  | [] => Except.ok []
  | x :: xs =>
    match formatRestaurant x with
    | Except.error e => Except.error e
    | Except.ok block =>
      match formatRestaurants xs with
      | Except.error e => Except.error e
      | Except.ok blocks => Except.ok (block :: blocks)

/-- Shallow embedding of the body of `get_restaurants` after the gateway
call (lines 107-138), as a function of the gateway result:
`if "error" in result:` returns the prefixed error string; then
`if "data" in result and "data" in result["data"] and
isinstance(result["data"]["data"], list):` formats `restaurants[:10]` (the
`[:10]` slice is `List.take 10`) and joins with `"\n---\n"` (or returns the
no-results sentence for an empty list); otherwise the fixed
unexpected-format sentence.  Note the inner membership test
`"data" in result["data"]` is evaluated on whatever value sits under the
top-level `data` key and raises a `TypeError` on a non-container. -/
def get_restaurants_format (result : Json) : Except String String :=
  match pyContains result "error" with
  | Except.error e => Except.error e
  | Except.ok true =>
    match pyGetItem result "error" with
    | Except.error e => Except.error e
    | Except.ok v => Except.ok ("Error fetching restaurants: " ++ pyStr v)
  | Except.ok false =>
    match pyContains result "data" with
    | Except.error e => Except.error e
    | Except.ok false => Except.ok "Unexpected response format from the API."
    | Except.ok true =>
      match pyGetItem result "data" with
      | Except.error e => Except.error e
      | Except.ok d =>
        match pyContains d "data" with
        | Except.error e => Except.error e
        | Except.ok false => Except.ok "Unexpected response format from the API."
        | Except.ok true =>
          match pyGetItem d "data" with
          | Except.error e => Except.error e
          | Except.ok (Json.arr restaurants) =>
            match formatRestaurants (restaurants.take 10) with
            | Except.error e => Except.error e
            | Except.ok blocks =>
              if blocks.isEmpty then
                Except.ok "No Restaurants found for this location and dates."
              else Except.ok (String.intercalate "\n---\n" blocks)
          | Except.ok _ => Except.ok "Unexpected response format from the API."

/-- The tool `get_restaurants` for a given HTTP outcome: the gateway call
followed by the formatting body. -/
def get_restaurants (r : HttpResult) : Except String String :=
  get_restaurants_format (call_rapidapi_request r)

/-- Whether a JSON value is a list, as `isinstance(value, list)` tests. -/
def isList : Json → Bool
  | Json.arr _ => true
  | _ => false

/-- Whether a JSON value is a non-container scalar, the values on which a
Python membership test `"data" in value` raises a `TypeError`. -/
def isScalarNonContainer : Json → Bool
  | Json.null => true
  | Json.bool _ => true
  | Json.num _ => true
  | _ => false

/-- A location entry with all five consumed fields present. -/
def parisEntry1 : List (String × Json) :=
  [("localizedName", Json.str "Paris"), ("locationId", Json.str "187147"),
   ("latitude", Json.str "48.8566"), ("longitude", Json.str "2.3522"),
   ("placeType", Json.str "CITY")]

/-- A location entry missing its `longitude` field. -/
def parisEntry2 : List (String × Json) :=
  [("localizedName", Json.str "Paris Region"), ("locationId", Json.str "187144"),
   ("latitude", Json.str "48.8"), ("placeType", Json.str "REGION")]

/-- A gateway result for the query `Paris` carrying the two entries above. -/
def parisResult : Json :=
  Json.obj [("data", Json.arr [Json.obj parisEntry1, Json.obj parisEntry2])]

/-- A sample restaurant entry, indexed so the twelve entries differ. -/
def restEntry (i : Nat) : List (String × Json) :=
  [("name", Json.str ("Resto " ++ toString i)), ("averageRating", Json.str "4.5"),
   ("userReviewCount", Json.str "120"), ("menuUrl", Json.str "http://menu.example"),
   ("parentGeoName", Json.str "Paris"),
   ("currentOpenStatusCategory", Json.str "OPEN"), ("isPremium", Json.bool false)]

/-- Twelve restaurant entries, two more than the display limit. -/
def twelveRestaurants : List Json :=
  (List.range 12).map (fun i => Json.obj (restEntry i))

/-- A gateway result with the doubly-nested shape holding twelve entries. -/
def restaurantsResult : Json :=
  Json.obj [("data", Json.obj [("data", Json.arr twelveRestaurants)])]

/-!
Helper lemmas shared by the claim theorems.
-/

/-- On a dict entry the location loop body never raises and produces the
four-line block. -/
lemma formatLocation_obj (fs : List (String × Json)) :
    formatLocation (Json.obj fs) = Except.ok (locBlock fs) := rfl

/-- On a dict entry the restaurant loop body never raises and produces the
doubled block. -/
lemma formatRestaurant_obj (fs : List (String × Json)) :
    formatRestaurant (Json.obj fs) = Except.ok (restBlock fs) := rfl

/-- Unfolding of `allObjs` on a cons cell. -/
lemma allObjs_cons (x : Json) (xs : List Json) :
    allObjs (x :: xs) = (isObj x && allObjs xs) := by
  simp [allObjs]

/-- When every entry is a dict, the location loop collects exactly the
per-entry blocks, in order. -/
lemma formatLocations_all_obj (locs : List Json) (h : allObjs locs = true) :
    formatLocations locs = Except.ok (locs.map locBlockJ) := by
  induction locs with
  | nil => rfl
  | cons x xs ih =>
    rw [allObjs_cons, Bool.and_eq_true] at h
    obtain ⟨hx, hxs⟩ := h
    cases x with
    | obj fs => simp [formatLocations, formatLocation_obj, ih hxs, locBlockJ]
    | null => simp [isObj] at hx
    | bool b => simp [isObj] at hx
    | num n => simp [isObj] at hx
    | str s => simp [isObj] at hx
    | arr ys => simp [isObj] at hx

/-- When every entry is a dict, the restaurant loop collects exactly the
per-entry blocks, in order. -/
lemma formatRestaurants_all_obj (rs : List Json) (h : allObjs rs = true) :
    formatRestaurants rs = Except.ok (rs.map restBlockJ) := by
  induction rs with
  | nil => rfl
  | cons x xs ih =>
    rw [allObjs_cons, Bool.and_eq_true] at h
    obtain ⟨hx, hxs⟩ := h
    cases x with
    | obj fs => simp [formatRestaurants, formatRestaurant_obj, ih hxs, restBlockJ]
    | null => simp [isObj] at hx
    | bool b => simp [isObj] at hx
    | num n => simp [isObj] at hx
    | str s => simp [isObj] at hx
    | arr ys => simp [isObj] at hx

/-- On a non-dict entry the first `location.get` raises `AttributeError`. -/
lemma formatLocation_not_obj (x : Json) (h : isObj x = false) :
    formatLocation x =
      Except.error ("AttributeError: " ++ pyTypeName x ++ " object has no attribute get") := by
  cases x <;> first | rfl | simp [isObj] at h

/-- On a non-dict entry the first `restaurant.get` raises `AttributeError`. -/
lemma formatRestaurant_not_obj (x : Json) (h : isObj x = false) :
    formatRestaurant x =
      Except.error ("AttributeError: " ++ pyTypeName x ++ " object has no attribute get") := by
  cases x <;> first | rfl | simp [isObj] at h

/-- A non-dict entry anywhere in the list makes the location loop raise. -/
lemma formatLocations_err (locs : List Json)
    (h : locs.any (fun l => !isObj l) = true) :
    ∃ m, formatLocations locs = Except.error m := by
  induction locs with
  | nil => simp at h
  | cons x xs ih =>
    by_cases hx : isObj x = true
    · rcases hx' : formatLocation x with m | block
      · exact ⟨m, by simp [formatLocations, hx']⟩
      · have htail : xs.any (fun l => !isObj l) = true := by
          rcases List.any_eq_true.mp h with ⟨l, hl, hnl⟩
          rcases List.mem_cons.mp hl with rfl | hl2
          · simp [hx] at hnl
          · exact List.any_eq_true.mpr ⟨l, hl2, hnl⟩
        obtain ⟨m, hm⟩ := ih htail
        exact ⟨m, by simp [formatLocations, hx', hm]⟩
    · have := formatLocation_not_obj x (by simpa using hx)
      exact ⟨"AttributeError: " ++ pyTypeName x ++ " object has no attribute get",
        by simp [formatLocations, this]⟩

/-- A non-dict entry anywhere in the list makes the restaurant loop raise. -/
lemma formatRestaurants_err (rs : List Json)
    (h : rs.any (fun l => !isObj l) = true) :
    ∃ m, formatRestaurants rs = Except.error m := by
  induction rs with
  | nil => simp at h
  | cons x xs ih =>
    by_cases hx : isObj x = true
    · rcases hx' : formatRestaurant x with m | block
      · exact ⟨m, by simp [formatRestaurants, hx']⟩
      · have htail : xs.any (fun l => !isObj l) = true := by
          rcases List.any_eq_true.mp h with ⟨l, hl, hnl⟩
          rcases List.mem_cons.mp hl with rfl | hl2
          · simp [hx] at hnl
          · exact List.any_eq_true.mpr ⟨l, hl2, hnl⟩
        obtain ⟨m, hm⟩ := ih htail
        exact ⟨m, by simp [formatRestaurants, hx', hm]⟩
    · have := formatRestaurant_not_obj x (by simpa using hx)
      exact ⟨"AttributeError: " ++ pyTypeName x ++ " object has no attribute get",
        by simp [formatRestaurants, this]⟩

/-!
Claim theorems.
-/

/-- Claim C1: for every invocation of `call_rapidapi_request`, any transport
failure, non-2xx HTTP status, or JSON-decode failure during the GET request
is caught and the function returns the dict mapping `"error"` to the message
string; the function never raises past this boundary (it is total, with no
exception channel in its type), and on success it returns the parsed JSON
response body. -/
theorem gateway_error_normalization :
    (∀ m, call_rapidapi_request (HttpResult.err m) =
      Json.obj [("error", Json.str m)]) ∧
    (∀ resp, is2xx resp.status = false →
      call_rapidapi_request (HttpResult.ok resp) =
        Json.obj [("error", Json.str (statusErrorMessage resp.status))]) ∧
    (∀ resp m, is2xx resp.status = true → resp.jsonBody = Except.error m →
      call_rapidapi_request (HttpResult.ok resp) =
        Json.obj [("error", Json.str m)]) ∧
    (∀ resp j, is2xx resp.status = true → resp.jsonBody = Except.ok j →
      call_rapidapi_request (HttpResult.ok resp) = j) := by
  refine ⟨fun m => rfl, ?_, ?_, ?_⟩
  · intro resp h
    simp [call_rapidapi_request, h]
  · intro resp m h2 hb
    simp [call_rapidapi_request, h2, hb]
  · intro resp j h2 hb
    simp [call_rapidapi_request, h2, hb]

/-- Witness for C1: a transport failure, a 404 response, a decode failure
and a 2xx success, each evaluated concretely. -/
theorem gateway_error_normalization_witness :
    call_rapidapi_request (HttpResult.err "connection refused") =
      Json.obj [("error", Json.str "connection refused")] ∧
    call_rapidapi_request (HttpResult.ok ⟨404, Except.ok Json.null⟩) =
      Json.obj [("error", Json.str (statusErrorMessage 404))] ∧
    call_rapidapi_request (HttpResult.ok ⟨200, Except.error "decode failed"⟩) =
      Json.obj [("error", Json.str "decode failed")] ∧
    call_rapidapi_request (HttpResult.ok ⟨200, Except.ok (Json.arr [])⟩) =
      Json.arr [] :=
  ⟨gateway_error_normalization.1 "connection refused",
   gateway_error_normalization.2.1 ⟨404, Except.ok Json.null⟩ (by decide),
   gateway_error_normalization.2.2.1 ⟨200, Except.error "decode failed"⟩ "decode failed"
     (by decide) rfl,
   gateway_error_normalization.2.2.2 ⟨200, Except.ok (Json.arr [])⟩ (Json.arr [])
     (by decide) rfl⟩

/-- Claim C2: for every gateway result that is a dict without an `error` key
whose `data` key holds a list of N >= 1 location dicts, `search_locations`
returns exactly N four-line blocks (name, location id, lat-lon pair, place
type), one per entry in input order, joined by the separator `"\n---\n"`;
an entry missing its longitude field is rendered with `N/A` in the
coordinates line (`pyStr (Json.str "N/A") = "N/A"` is the third conjunct). -/
theorem search_locations_blocks (fields : List (String × Json)) (locs : List Json)
    (herr : lookupField fields "error" = none)
    (hdata : lookupField fields "data" = some (Json.arr locs))
    (hne : locs ≠ [])
    (hobjs : allObjs locs = true) :
    search_locations_format (Json.obj fields) =
      Except.ok (String.intercalate "\n---\n" (locs.map locBlockJ)) ∧
    (locs.map locBlockJ).length = locs.length ∧
    pyStr (Json.str "N/A") = "N/A" ∧
    ∀ fs, Json.obj fs ∈ locs → lookupField fs "longitude" = none →
      locBlockJ (Json.obj fs) =
        "Name: " ++ pyStr (objGet fs "localizedName" (Json.str "Unknown")) ++ "\n" ++
        "Location Id: " ++ pyStr (objGet fs "locationId" (Json.str "Unknown")) ++ "\n" ++
        "Coordinates: " ++ pyStr (objGet fs "latitude" (Json.str "N/A")) ++ ", " ++
          pyStr (Json.str "N/A") ++ "\n" ++
        "PlaceType: " ++ pyStr (objGet fs "placeType" (Json.str "Unknown")) ++ "\n" := by
  have hfmt := formatLocations_all_obj locs hobjs
  obtain ⟨y, ys, rfl⟩ : ∃ y ys, locs = y :: ys := by
    cases locs with
    | nil => exact absurd rfl hne
    | cons a as => exact ⟨a, as, rfl⟩
  refine ⟨?_, by simp, rfl, ?_⟩
  · simp [search_locations_format, pyContains, pyGetItem, herr, hdata, hfmt]
  · intro fs _hmem hlon
    simp only [locBlockJ, locBlock, objGet, hlon, Option.getD_none]

/-- Witness for C2: the `Paris` end-to-end example of the spec, two entries
with the second missing `longitude`, producing two blocks joined by the
separator, the second showing `N/A` for longitude. -/
theorem search_locations_blocks_witness :
    search_locations_format parisResult =
      Except.ok (String.intercalate "\n---\n"
        ([Json.obj parisEntry1, Json.obj parisEntry2].map locBlockJ)) ∧
    ([Json.obj parisEntry1, Json.obj parisEntry2].map locBlockJ).length = 2 ∧
    search_locations_format parisResult =
      Except.ok ("Name: Paris\nLocation Id: 187147\nCoordinates: 48.8566, 2.3522\nPlaceType: CITY\n"
        ++ "\n---\n"
        ++ "Name: Paris Region\nLocation Id: 187144\nCoordinates: 48.8, N/A\nPlaceType: REGION\n") := by
  have h := search_locations_blocks
    [("data", Json.arr [Json.obj parisEntry1, Json.obj parisEntry2])]
    [Json.obj parisEntry1, Json.obj parisEntry2]
    rfl rfl (List.cons_ne_nil _ _) rfl
  exact ⟨h.1, rfl, h.1.trans (by rfl)⟩

/-- Claim C3: for every gateway result that is a dict without an `error` key
whose nested `data`-inside-`data` key holds a list of more than 10
restaurant dicts, `get_restaurants` formats exactly the first 10 entries of
that list, in order, producing exactly 10 formatted blocks joined by
`"\n---\n"`. -/
theorem get_restaurants_truncates_to_ten (fields dfs : List (String × Json))
    (rs : List Json)
    (herr : lookupField fields "error" = none)
    (hdata : lookupField fields "data" = some (Json.obj dfs))
    (hinner : lookupField dfs "data" = some (Json.arr rs))
    (hlen : 10 < rs.length)
    (hobjs : allObjs rs = true) :
    get_restaurants_format (Json.obj fields) =
      Except.ok (String.intercalate "\n---\n" ((rs.take 10).map restBlockJ)) ∧
    ((rs.take 10).map restBlockJ).length = 10 := by
  have htake : allObjs (rs.take 10) = true := by
    rw [allObjs, List.all_eq_true] at hobjs ⊢
    exact fun x hx => hobjs x (List.take_subset 10 rs hx)
  have hfmt := formatRestaurants_all_obj (rs.take 10) htake
  obtain ⟨y, ys, hrs⟩ : ∃ y ys, rs = y :: ys := by
    cases rs with
    | nil => simp at hlen
    | cons a as => exact ⟨a, as, rfl⟩
  constructor
  · subst hrs
    simp [get_restaurants_format, pyContains, pyGetItem, herr, hdata, hinner, hfmt,
      List.take_cons] at hfmt ⊢
    simp [hfmt]
  · simp [List.length_take]
    omega

/-- Witness for C3: the end-to-end example of the spec, a gateway result
holding twelve restaurant entries, truncated to exactly 10 blocks. -/
theorem get_restaurants_truncates_to_ten_witness :
    get_restaurants_format restaurantsResult =
      Except.ok (String.intercalate "\n---\n" ((twelveRestaurants.take 10).map restBlockJ)) ∧
    ((twelveRestaurants.take 10).map restBlockJ).length = 10 :=
  get_restaurants_truncates_to_ten
    [("data", Json.obj [("data", Json.arr twelveRestaurants)])]
    [("data", Json.arr twelveRestaurants)]
    twelveRestaurants rfl rfl rfl (by simp [twelveRestaurants]) rfl

/-- Counterexample to C4 as stated: the gateway result
`\x7b"data": 5\x7d` is a dict without an `error` key whose shape does not
match the expected structure of `get_restaurants` (there is no nested
`data` list), yet the tool does not return the fixed sentence: the inner
membership test `"data" in result["data"]` raises a `TypeError` on the
non-container value `5`. -/
theorem get_restaurants_scalar_data_not_sentinel :
    get_restaurants_format (Json.obj [("data", Json.num 5)]) =
      Except.error "TypeError: argument of type int is not iterable" ∧
    get_restaurants_format (Json.obj [("data", Json.num 5)]) ≠
      Except.ok "Unexpected response format from the API." :=
  ⟨rfl, fun h => Except.noConfusion (rfl.trans h :
    (Except.error "TypeError: argument of type int is not iterable" : Except String String) =
      Except.ok "Unexpected response format from the API.")⟩

/-- Claim C4 (amended): for every gateway result that is a dict without an
`error` key and whose shape does not match the expected structure, the tool
returns exactly the fixed sentence `Unexpected response format from the
API.` — for `search_locations` in all such cases (no `data` key, or a
non-list `data` value); for `get_restaurants` provided the top-level `data`
value, when present, is itself a dict (a non-dict `data` value can instead
raise, see the counterexample and C10). -/
theorem unexpected_format_sentinel :
    (∀ fields, lookupField fields "error" = none →
      lookupField fields "data" = none →
      search_locations_format (Json.obj fields) =
        Except.ok "Unexpected response format from the API.") ∧
    (∀ fields j, lookupField fields "error" = none →
      lookupField fields "data" = some j → isList j = false →
      search_locations_format (Json.obj fields) =
        Except.ok "Unexpected response format from the API.") ∧
    (∀ fields, lookupField fields "error" = none →
      lookupField fields "data" = none →
      get_restaurants_format (Json.obj fields) =
        Except.ok "Unexpected response format from the API.") ∧
    (∀ fields dfs, lookupField fields "error" = none →
      lookupField fields "data" = some (Json.obj dfs) →
      lookupField dfs "data" = none →
      get_restaurants_format (Json.obj fields) =
        Except.ok "Unexpected response format from the API.") ∧
    (∀ fields dfs j, lookupField fields "error" = none →
      lookupField fields "data" = some (Json.obj dfs) →
      lookupField dfs "data" = some j → isList j = false →
      get_restaurants_format (Json.obj fields) =
        Except.ok "Unexpected response format from the API.") := by
  refine ⟨?_, ?_, ?_, ?_, ?_⟩
  · intro fields herr hdata
    simp [search_locations_format, pyContains, pyGetItem, herr, hdata]
  · intro fields j herr hdata hj
    cases j <;> simp_all [search_locations_format, pyContains, pyGetItem, isList]
  · intro fields herr hdata
    simp [get_restaurants_format, pyContains, pyGetItem, herr, hdata]
  · intro fields dfs herr hdata hinner
    simp [get_restaurants_format, pyContains, pyGetItem, herr, hdata, hinner]
  · intro fields dfs j herr hdata hinner hj
    cases j <;> simp_all [get_restaurants_format, pyContains, pyGetItem, isList]

/-- Witness for the amended C4: a string under `data` for each tool. -/
theorem unexpected_format_sentinel_witness :
    search_locations_format (Json.obj [("data", Json.str "oops")]) =
      Except.ok "Unexpected response format from the API." ∧
    get_restaurants_format (Json.obj [("data", Json.obj [("data", Json.str "oops")])]) =
      Except.ok "Unexpected response format from the API." :=
  ⟨unexpected_format_sentinel.2.1 [("data", Json.str "oops")] (Json.str "oops") rfl rfl rfl,
   unexpected_format_sentinel.2.2.2.2 [("data", Json.obj [("data", Json.str "oops")])]
     [("data", Json.str "oops")] (Json.str "oops") rfl rfl rfl rfl⟩

/-- Claim C5: for every gateway result that is a dict containing an `error`
key, each tool returns a string that is exactly the error message value
(rendered by `str()`) prefixed with its fixed error phrase, with no
formatting of any data. -/
theorem error_marker_prefixed (fields : List (String × Json)) (e : Json)
    (h : lookupField fields "error" = some e) :
    search_locations_format (Json.obj fields) =
      Except.ok ("Error fetching locations: " ++ pyStr e) ∧
    get_restaurants_format (Json.obj fields) =
      Except.ok ("Error fetching restaurants: " ++ pyStr e) := by
  constructor
  · simp [search_locations_format, pyContains, pyGetItem, h]
  · simp [get_restaurants_format, pyContains, pyGetItem, h]

/-- Witness for C5: a concrete error marker, evaluated on both tools. -/
theorem error_marker_prefixed_witness :
    search_locations_format (Json.obj [("error", Json.str "timeout")]) =
      Except.ok "Error fetching locations: timeout" ∧
    get_restaurants_format (Json.obj [("error", Json.str "timeout")]) =
      Except.ok "Error fetching restaurants: timeout" := by
  have h := error_marker_prefixed [("error", Json.str "timeout")] (Json.str "timeout") rfl
  exact ⟨h.1.trans (by rfl), h.2.trans (by rfl)⟩

/-- Claim C6: for every gateway result whose expected data list is present
but empty, the tool returns exactly its fixed no-results sentence. -/
theorem empty_list_sentinel :
    (∀ fields, lookupField fields "error" = none →
      lookupField fields "data" = some (Json.arr []) →
      search_locations_format (Json.obj fields) =
        Except.ok "No locations found matching your query.") ∧
    (∀ fields dfs, lookupField fields "error" = none →
      lookupField fields "data" = some (Json.obj dfs) →
      lookupField dfs "data" = some (Json.arr []) →
      get_restaurants_format (Json.obj fields) =
        Except.ok "No Restaurants found for this location and dates.") := by
  constructor
  · intro fields herr hdata
    simp [search_locations_format, pyContains, pyGetItem, herr, hdata, formatLocations]
  · intro fields dfs herr hdata hinner
    simp [get_restaurants_format, pyContains, pyGetItem, herr, hdata, hinner, formatRestaurants]

/-- Witness for C6: concrete empty data lists for both tools. -/
theorem empty_list_sentinel_witness :
    search_locations_format (Json.obj [("data", Json.arr [])]) =
      Except.ok "No locations found matching your query." ∧
    get_restaurants_format (Json.obj [("data", Json.obj [("data", Json.arr [])])]) =
      Except.ok "No Restaurants found for this location and dates." :=
  ⟨empty_list_sentinel.1 [("data", Json.arr [])] rfl rfl,
   empty_list_sentinel.2 [("data", Json.obj [("data", Json.arr [])])]
     [("data", Json.arr [])] rfl rfl rfl⟩

/-- Claim C7: for every entry that is a dict, formatting never fails, every
absent field is looked up through the defaulted `objGet` whose value is the
literal placeholder (so the field line is present in the block with the
placeholder, never omitted), and the placeholders render verbatim. -/
theorem missing_field_placeholder (fs : List (String × Json)) :
    formatLocation (Json.obj fs) = Except.ok (locBlock fs) ∧
    formatRestaurant (Json.obj fs) = Except.ok (restBlock fs) ∧
    (∀ key d, lookupField fs key = none → objGet fs key d = d) ∧
    pyStr (Json.str "Unknown") = "Unknown" ∧
    pyStr (Json.str "N/A") = "N/A" :=
  ⟨rfl, rfl, fun key d h => by simp [objGet, h], rfl, rfl⟩

/-- Witness for C7: the empty dict, every field absent, formatted by both
tools with all placeholders in place. -/
theorem missing_field_placeholder_witness :
    formatLocation (Json.obj []) =
      Except.ok "Name: Unknown\nLocation Id: Unknown\nCoordinates: N/A, N/A\nPlaceType: Unknown\n" ∧
    formatRestaurant (Json.obj []) =
      Except.ok ("Name: Unknown\nAverage Rating: Unknown\nUser Review Count: Unknown\nMenu Url: Unknown\nCity Name GeoName: Unknown\nStatus: Unknown\nPremium: Unknown\n"
        ++ "Room: "
        ++ "Name: Unknown\nAverage Rating: Unknown\nUser Review Count: Unknown\nMenu Url: Unknown\nCity Name GeoName: Unknown\nStatus: Unknown\nPremium: Unknown\n"
        ++ "\n") ∧
    objGet [] "longitude" (Json.str "N/A") = Json.str "N/A" := by
  have h := missing_field_placeholder []
  exact ⟨h.1.trans (by rfl), h.2.1.trans (by rfl), h.2.2.1 "longitude" (Json.str "N/A") rfl⟩

/-- Claim C8: for every restaurant entry formatted by `get_restaurants`,
the produced block contains the seven-field text `restBase` twice: once
directly, and once re-embedded under a `Room: ` label appended at the end,
doubling the block content. -/
theorem restaurant_block_room_duplication (fs : List (String × Json)) :
    formatRestaurant (Json.obj fs) =
      Except.ok (restBase fs ++ "Room: " ++ restBase fs ++ "\n") ∧
    restBlock fs = restBase fs ++ "Room: " ++ restBase fs ++ "\n" :=
  ⟨rfl, rfl⟩

/-- Claim C9: for every gateway result that is a dict containing the key
`error`, both tools take the error branch regardless of whether the HTTP
request actually failed; a successful 2xx response whose JSON body happens
to contain an `error` key is passed through the gateway unchanged and is
indistinguishable at the tool surface from a transport failure with the
same message. -/
theorem error_key_always_error_branch (fields : List (String × Json)) (e : Json)
    (m : String) (h : lookupField fields "error" = some e) :
    search_locations_format (Json.obj fields) =
      Except.ok ("Error fetching locations: " ++ pyStr e) ∧
    get_restaurants_format (Json.obj fields) =
      Except.ok ("Error fetching restaurants: " ++ pyStr e) ∧
    call_rapidapi_request (HttpResult.ok ⟨200, Except.ok (Json.obj fields)⟩) =
      Json.obj fields ∧
    search_locations (HttpResult.ok ⟨200, Except.ok (Json.obj [("error", Json.str m)])⟩) =
      search_locations (HttpResult.err m) ∧
    get_restaurants (HttpResult.ok ⟨200, Except.ok (Json.obj [("error", Json.str m)])⟩) =
      get_restaurants (HttpResult.err m) := by
  refine ⟨?_, ?_, rfl, rfl, rfl⟩
  · simp [search_locations_format, pyContains, pyGetItem, h]
  · simp [get_restaurants_format, pyContains, pyGetItem, h]

/-- Witness for C9: a 2xx body with an `error` key, evaluated concretely. -/
theorem error_key_always_error_branch_witness :
    search_locations_format (Json.obj [("error", Json.str "quota exceeded")]) =
      Except.ok "Error fetching locations: quota exceeded" ∧
    search_locations (HttpResult.ok ⟨200, Except.ok (Json.obj [("error", Json.str "nope")])⟩) =
      search_locations (HttpResult.err "nope") := by
  have h := error_key_always_error_branch [("error", Json.str "quota exceeded")]
    (Json.str "quota exceeded") "nope" rfl
  exact ⟨h.1.trans (by rfl), h.2.2.2.1⟩

/-- Claim C10: a non-dict element in the `data` list of `search_locations`,
or among the first 10 elements of the nested list of `get_restaurants`,
makes the tool raise an uncaught exception from the field lookup instead of
returning any string; likewise `get_restaurants` raises when the top-level
`data` value is a non-container scalar, on which the membership test
raises. -/
theorem non_object_entries_raise :
    (∀ fields locs, lookupField fields "error" = none →
      lookupField fields "data" = some (Json.arr locs) →
      locs.any (fun l => !isObj l) = true →
      isPyError (search_locations_format (Json.obj fields)) = true) ∧
    (∀ fields dfs rs, lookupField fields "error" = none →
      lookupField fields "data" = some (Json.obj dfs) →
      lookupField dfs "data" = some (Json.arr rs) →
      (rs.take 10).any (fun l => !isObj l) = true →
      isPyError (get_restaurants_format (Json.obj fields)) = true) ∧
    (∀ fields d, lookupField fields "error" = none →
      lookupField fields "data" = some d →
      isScalarNonContainer d = true →
      isPyError (get_restaurants_format (Json.obj fields)) = true) := by
  refine ⟨?_, ?_, ?_⟩
  · intro fields locs herr hdata hany
    obtain ⟨m, hm⟩ := formatLocations_err locs hany
    simp [search_locations_format, pyContains, pyGetItem, herr, hdata, hm, isPyError]
  · intro fields dfs rs herr hdata hinner hany
    obtain ⟨m, hm⟩ := formatRestaurants_err (rs.take 10) hany
    simp [get_restaurants_format, pyContains, pyGetItem, herr, hdata, hinner, hm, isPyError]
  · intro fields d herr hdata hscalar
    cases d <;> simp_all [get_restaurants_format, pyContains, pyGetItem, isScalarNonContainer,
      isPyError]

/-- Witness for C10: a string entry in the location list, a null entry in
the restaurant list, and a numeric top-level `data` value. -/
theorem non_object_entries_raise_witness :
    isPyError (search_locations_format
      (Json.obj [("data", Json.arr [Json.str "Paris"])])) = true ∧
    isPyError (get_restaurants_format
      (Json.obj [("data", Json.obj [("data", Json.arr [Json.null])])])) = true ∧
    isPyError (get_restaurants_format (Json.obj [("data", Json.num 7)])) = true :=
  ⟨non_object_entries_raise.1 [("data", Json.arr [Json.str "Paris"])]
     [Json.str "Paris"] rfl rfl rfl,
   non_object_entries_raise.2.1 [("data", Json.obj [("data", Json.arr [Json.null])])]
     [("data", Json.arr [Json.null])] [Json.null] rfl rfl rfl rfl,
   non_object_entries_raise.2.2 [("data", Json.num 7)] (Json.num 7) rfl rfl rfl⟩
